import Mathlib

/-!
Verification of the argument-bot module (`argubots.py`).

The module defines three agent families over a Kialo claim graph:
`KialoAgent` and `KialoAgent2` pick a counterargument to a similar claim,
and `RAG_Agent` wraps an LLM chat-completion call.

Python strings are modelled as `List Char` (`PyStr`): Python's `len`,
slicing, `*` repetition, `join`, `startswith` are character-based, which
matches `List` operations exactly.  Python's module-level randomness
(`random.choice`) is modelled by passing a random tape value `r : Nat` and
selecting index `r % len`, which is uniform when `r` is uniform over a
multiple of `len`; `random.choice` on an empty sequence raises
`IndexError`, matched by the `none` branch of `l[r % l.length]?` since
`r % 0 = r` and indexing an empty list is out of bounds.
Exceptions are modelled with `Except PyError`.
-/

/-- Python strings, modelled as character lists. -/
abbrev PyStr := List Char

/-- Coerce a Lean string literal to the `PyStr` model. -/
def str (s : String) : PyStr := s.data

/-- Python string repetition `s * n`. -/
def pyRep (s : PyStr) (n : Nat) : PyStr := (List.replicate n s).flatten

/-- One dialogue turn, the record `{speaker, content}` of `dialogue.py`. -/
structure Turn where
  speaker : PyStr
  content : PyStr
deriving DecidableEq, Repr

/-- A dialogue is the ordered sequence of turns; `d[-1]` is `getLast?`,
`len(d)` is `length`, `d[i]` is positional indexing. -/
abbrev Dialogue := List Turn

/-- The `kind` filter of `Kialo.closest_claims`. -/
inductive EdgeKind where
  | has_pros
  | has_cons
  | any
deriving DecidableEq, Repr

/-- Python exceptions that the embedded code can raise.  `noContentError`
models the `NoContentError` that the spec attributes to the LLM-agent layer
(`agents.py`, not among the provided sources). -/
inductive PyError where
  | assertionError : PyStr → PyError
  | indexError : PyError
  | valueError : PyStr → PyError
  | noContentError : PyError
deriving DecidableEq, Repr

deriving instance DecidableEq for Except

/-- Modelled from the spec: the `Kialo` claim-graph class lives in
`kialo.py`, which is not among the provided sources.  Per the spec it
offers `pros`/`cons` direct edge lookup (empty if none),
`closest_claims(query, n, kind)` returning an ordered result list, and
`random_chain()` random-walk sampling.  The lookup functions are kept
abstract (the similarity scoring is implementation-chooseable per the
spec); `closest_claims_default` stands for a `closest_claims` call that
omits `n`, whose default value is declared in the missing `kialo.py`.
A sampled `random_chain()` output is passed to the agents as an explicit
`chain` argument, with validity captured by `Kialo.validChain`. -/
structure Kialo where
  pros : PyStr → List PyStr
  cons : PyStr → List PyStr
  closest_claims : PyStr → Nat → EdgeKind → List PyStr
  closest_claims_default : PyStr → EdgeKind → List PyStr

/-- Modelled from the spec: `random_chain()` (in the missing `kialo.py`)
"starting from a graph root, repeatedly descends one random pro/con edge to
produce a path; returns at least one claim".  A list is a valid
`random_chain()` output when it is non-empty and each claim after the first
is a pro or con child of its predecessor.  (Which claims are roots is
internal to `kialo.py` and not modelled.) -/
def Kialo.validChain (k : Kialo) (c : List PyStr) : Prop :=
  c ≠ [] ∧ List.Chain' (fun a b => b ∈ k.pros a ∨ b ∈ k.cons a) c

instance (k : Kialo) (c : List PyStr) : Decidable (k.validChain c) := by
  unfold Kialo.validChain; infer_instance

/-- The shared else-branch of `KialoAgent.response` and
`KialoAgent2.response` (lines 59-65 and 97-103 of `argubots.py`, verbatim
duplicates): query `closest_claims(query, n=3, kind='has_cons')`, `assert`
the result non-empty, pick a random neighbor, pick a random con of it.
`r1` and `r2` are the two `random.choice` tape values. -/
def respondToQuery (k : Kialo) (query : PyStr) (r1 r2 : Nat) : Except PyError PyStr :=
  let neighbors := k.closest_claims query 3 EdgeKind.has_cons
  if neighbors = [] then
    Except.error (PyError.assertionError
      (str "No claims to choose from; is Kialo data structure empty?"))
  else
    match neighbors[r1 % neighbors.length]? with
    | none => Except.error PyError.indexError
    | some neighbor =>
      match (k.cons neighbor)[r2 % (k.cons neighbor).length]? with
      | none => Except.error PyError.indexError
      | some claim => Except.ok claim

/-- `KialoAgent.response` (argubots.py lines 50-67).  `chain` is the
sampled `random_chain()` output used when the dialogue is empty. -/
def KialoAgent.response (k : Kialo) (chain : List PyStr) (r1 r2 : Nat)
    (d : Dialogue) : Except PyError PyStr :=
  if d.length = 0 then
    match chain[0]? with
    | some claim => Except.ok claim
    | none => Except.error PyError.indexError
  else
    match d.getLast? with
    | none => Except.error PyError.indexError
    | some prev => respondToQuery k prev.content r1 r2

/-- The query built by `KialoAgent2.response` line 94:
`";".join([ d[i]['content']*(i+1) for i in range(len(d)) ])`. -/
def kialoAgent2Query (d : Dialogue) : PyStr :=
  List.intercalate (str ";")
    ((List.range d.length).map (fun i => pyRep ((d.getD i ⟨[], []⟩).content) (i + 1)))

/-- `KialoAgent2.response` (argubots.py lines 87-105): same as
`KialoAgent.response` except for the query construction. -/
def KialoAgent2.response (k : Kialo) (chain : List PyStr) (r1 r2 : Nat)
    (d : Dialogue) : Except PyError PyStr :=
  if d.length = 0 then
    match chain[0]? with
    | some claim => Except.ok claim
    | none => Except.error PyError.indexError
  else
    respondToQuery k (kialoAgent2Query d) r1 r2

/-- `kialo_responses` (argubots.py lines 116-123).  The first-element
access `closest_claims(s, kind='has_cons')[0]` is unguarded: indexing an
empty result raises `IndexError`. -/
def kialo_responses (k : Kialo) (s : PyStr) : Except PyError PyStr :=
  match (k.closest_claims_default s EdgeKind.has_cons)[0]? with
  | none => Except.error PyError.indexError
  | some c =>
    let result := str "One possibly related claim from the Kialo debate website:\n\t\"" ++
      c ++ str "\""
    let result := if k.pros c = [] then result else
      result ++ str "\n" ++ List.intercalate (str "\n\t* ")
        (str "Some arguments from other Kialo users in favor of that claim:" :: k.pros c)
    let result := if k.cons c = [] then result else
      result ++ str "\n" ++ List.intercalate (str "\n\t* ")
        (str "Some arguments from other Kialo users against that claim:" :: k.cons c)
    Except.ok result

/-- One `{role, content}` message of the chat-completion request. -/
structure ChatMessage where
  role : PyStr
  content : PyStr
deriving DecidableEq, Repr

/-- One choice of a chat completion: `message.content` (which may fail to
be a text string, modelled by `none`) and the `finish_reason` flag. -/
structure ChatChoice where
  content? : Option PyStr
  finish_reason : PyStr
deriving DecidableEq, Repr

/-- A chat completion as returned by the external LLM service. -/
structure ChatCompletion where
  choices : List ChatChoice
deriving DecidableEq, Repr

/-- The `RAG_Agent` configuration (argubots.py lines 126-141).
`fmt` models `dialogue_to_openai(d, speaker=self.name, **self.kwargs_format)`
(defined in `agents.py`, not among the provided sources; modelled from the
spec as a pure dialogue formatter closed over the agent's configuration).
`client` models `self.client.chat.completions.create(messages=..., model=self.model, ...)`
with the model identifier and keyword options folded into the function. -/
structure RAG_Agent where
  name : PyStr
  fmt : Dialogue → List ChatMessage
  client : List ChatMessage → ChatCompletion

/-- `RAG_Agent.response` (argubots.py lines 128-171).  Note that the
`kialo` parameter is accepted but never read by the body: the messages
sent to the completion call are exactly `fmt d`. -/
def RAG_Agent.response (a : RAG_Agent) (d : Dialogue) (kialo : Kialo) :
    Except PyError PyStr :=
  let messages := a.fmt d
  let resp := a.client messages
  match resp.choices[0]? with
  | none => Except.error PyError.indexError
  | some choice =>
    match choice.content? with
    | none => Except.error (PyError.valueError (str "No content string returned"))
    | some content =>
      let content := if choice.finish_reason = str "length"
        then content ++ str " ..." else content
      let speaker := a.name ++ str ": "
      let content := if speaker.isPrefixOf content
        then content.drop speaker.length else content
      Except.ok content

/-- `random.choice(l)` with random tape value `r`: the element at index
`r % l.length` (the empty-list default `[]` is never used when `l` is
non-empty). -/
def pickIdx (l : List PyStr) (r : Nat) : PyStr := l.getD (r % l.length) []

/-- The claim picked by the two chained `random.choice` calls of the
Kialo agents: neighbor `r1 % |neighbors|` of the `closest_claims` result,
then con `r2 % |cons|` of that neighbor. -/
def pickCon (k : Kialo) (nbs : List PyStr) (r1 r2 : Nat) : PyStr :=
  pickIdx (k.cons (pickIdx nbs r1)) r2

/-- Spec-side description of the policy-B query (for comparison with the
code's `kialoAgent2Query`): the contents of the turns in order, turn `i`
repeated `i + 1` times, written as direct recursion on the dialogue. -/
def specQueryBParts : Nat → Dialogue → List PyStr
  | _, [] => []
  | i, t :: ts => pyRep t.content (i + 1) :: specQueryBParts (i + 1) ts

/-- Spec-side policy-B query: the repeated contents joined with `";"`. -/
def specQueryB (d : Dialogue) : PyStr :=
  List.intercalate (str ";") (specQueryBParts 0 d)

/-- State-threaded variant of `KialoAgent.response`: every read of the
dialogue passes the dialogue value along, exposing that the method returns
it unchanged (the body performs no mutating operation on `d`). -/
def KialoAgent.responseSt (k : Kialo) (chain : List PyStr) (r1 r2 : Nat)
    (d : Dialogue) : Except PyError PyStr × Dialogue :=
  let (n, d1) := (d.length, d)
  if n = 0 then
    (match chain[0]? with
      | some claim => Except.ok claim
      | none => Except.error PyError.indexError, d1)
  else
    match (d1.getLast?, d1) with
    | (none, d2) => (Except.error PyError.indexError, d2)
    | (some prev, d2) => (respondToQuery k prev.content r1 r2, d2)

/-- State-threaded variant of `KialoAgent2.response`. -/
def KialoAgent2.responseSt (k : Kialo) (chain : List PyStr) (r1 r2 : Nat)
    (d : Dialogue) : Except PyError PyStr × Dialogue :=
  let (n, d1) := (d.length, d)
  if n = 0 then
    (match chain[0]? with
      | some claim => Except.ok claim
      | none => Except.error PyError.indexError, d1)
  else
    let (q, d2) := (kialoAgent2Query d1, d1)
    (respondToQuery k q r1 r2, d2)

/-- State-threaded variant of `RAG_Agent.response`: the dialogue is read
once (by the message formatter) and returned unchanged. -/
def RAG_Agent.responseSt (a : RAG_Agent) (d : Dialogue) (kialo : Kialo) :
    Except PyError PyStr × Dialogue :=
  let (messages, d1) := (a.fmt d, d)
  let resp := a.client messages
  (match resp.choices[0]? with
    | none => Except.error PyError.indexError
    | some choice =>
      match choice.content? with
      | none => Except.error (PyError.valueError (str "No content string returned"))
      | some content =>
        let content := if choice.finish_reason = str "length"
          then content ++ str " ..." else content
        let speaker := a.name ++ str ": "
        let content := if speaker.isPrefixOf content
          then content.drop speaker.length else content
        Except.ok content, d1)

/-- A concrete claim graph for witnesses: every similarity query resolves
to the single claim `"C1"`, whose cons are `"C1a"` and `"C1b"`. -/
def kEx : Kialo where
  pros := fun _ => []
  cons := fun c => if c = str "C1" then [str "C1a", str "C1b"] else []
  closest_claims := fun _ _ _ => [str "C1"]
  closest_claims_default := fun _ _ => [str "C1"]

/-- A concrete claim graph whose similarity queries all come back empty. -/
def kEmpty : Kialo where
  pros := fun _ => []
  cons := fun _ => []
  closest_claims := fun _ _ _ => []
  closest_claims_default := fun _ _ => []

/-- A concrete one-turn dialogue for witnesses. -/
def dEx : Dialogue := [⟨str "user", str "hello"⟩]

/-- A concrete `RAG_Agent` whose service echoes a completion whose raw
content is exactly the speaker name followed by a bare colon, flagged as
truncated. -/
def aBob : RAG_Agent where
  name := str "Bob"
  fmt := fun _ => []
  client := fun _ => ⟨[⟨some (str "Bob:"), str "length"⟩]⟩

/-- A concrete `RAG_Agent` whose service returns a truncated completion
that echoes the speaker label before ordinary text. -/
def aAlice : RAG_Agent where
  name := str "Alice"
  fmt := fun _ => []
  client := fun _ => ⟨[⟨some (str "Alice: I agree"), str "length"⟩]⟩

/-- A concrete `RAG_Agent` whose service returns a completion with no
text content. -/
def aNone : RAG_Agent where
  name := str "Bob"
  fmt := fun _ => []
  client := fun _ => ⟨[⟨none, str "stop"⟩]⟩

lemma length_ne_zero_of_getLast? {d : Dialogue} {t : Turn}
    (h : d.getLast? = some t) : d.length ≠ 0 := by
  cases d with
  | nil => simp at h
  | cons a as => simp

lemma pickIdx_mem {l : List PyStr} (h : l ≠ []) (r : Nat) : pickIdx l r ∈ l := by
  have hlt : r % l.length < l.length := Nat.mod_lt _ (List.length_pos.mpr h)
  unfold pickIdx
  rw [List.getD_eq_getElem?_getD, List.getElem?_eq_getElem hlt]
  exact List.getElem_mem hlt

lemma getElem?_pickIdx {l : List PyStr} (h : l ≠ []) (r : Nat) :
    l[r % l.length]? = some (pickIdx l r) := by
  have hlt : r % l.length < l.length := Nat.mod_lt _ (List.length_pos.mpr h)
  rw [List.getElem?_eq_getElem hlt]
  unfold pickIdx
  rw [List.getD_eq_getElem?_getD, List.getElem?_eq_getElem hlt]
  rfl

lemma respondToQuery_ok (k : Kialo) (query : PyStr) (r1 r2 : Nat)
    (hne : k.closest_claims query 3 EdgeKind.has_cons ≠ [])
    (hc : k.cons (pickIdx (k.closest_claims query 3 EdgeKind.has_cons) r1) ≠ []) :
    respondToQuery k query r1 r2 =
      Except.ok (pickCon k (k.closest_claims query 3 EdgeKind.has_cons) r1 r2) := by
  unfold respondToQuery
  simp only [if_neg hne, getElem?_pickIdx hne r1, getElem?_pickIdx hc r2]
  rfl

lemma respondToQuery_assert_iff (k : Kialo) (query : PyStr) (r1 r2 : Nat) :
    (∃ m, respondToQuery k query r1 r2 = Except.error (PyError.assertionError m)) ↔
      k.closest_claims query 3 EdgeKind.has_cons = [] := by
  by_cases h : k.closest_claims query 3 EdgeKind.has_cons = []
  · constructor
    · intro _
      exact h
    · intro _
      exact ⟨_, by unfold respondToQuery; rw [if_pos h]⟩
  · constructor
    · rintro ⟨m, hm⟩
      exfalso
      simp only [respondToQuery, if_neg h, getElem?_pickIdx h r1] at hm
      cases h2 : (k.cons (pickIdx (k.closest_claims query 3 EdgeKind.has_cons) r1))[r2 %
          (k.cons (pickIdx (k.closest_claims query 3 EdgeKind.has_cons) r1)).length]? with
      | none => rw [h2] at hm; cases hm
      | some c => rw [h2] at hm; cases hm
    · intro hh
      exact absurd hh h

/-- A concrete two-turn dialogue for witnesses. -/
def dEx2 : Dialogue := [⟨str "user", str "ab"⟩, ⟨str "bot", str "cd"⟩]

/-- C1: for a non-empty dialogue, `KialoAgent.response` queries
`closest_claims(last turn's content, n=3, kind='has_cons')`, picks the
neighbor at the uniformly distributed random index `r1 % |neighbors|`
(`random.choice`), and returns that neighbor's con-claim at the uniformly
distributed random index `r2 % |cons|`; the chosen neighbor is among the
returned claims and the reply is among its cons. -/
theorem kialoAgent_response_random_con (k : Kialo) (chain : List PyStr)
    (r1 r2 : Nat) (d : Dialogue) (t : Turn) (hlast : d.getLast? = some t)
    (hne : k.closest_claims t.content 3 EdgeKind.has_cons ≠ [])
    (hcons : ∀ c ∈ k.closest_claims t.content 3 EdgeKind.has_cons, k.cons c ≠ []) :
    KialoAgent.response k chain r1 r2 d =
      Except.ok (pickCon k (k.closest_claims t.content 3 EdgeKind.has_cons) r1 r2) ∧
    pickIdx (k.closest_claims t.content 3 EdgeKind.has_cons) r1 ∈
      k.closest_claims t.content 3 EdgeKind.has_cons ∧
    pickCon k (k.closest_claims t.content 3 EdgeKind.has_cons) r1 r2 ∈
      k.cons (pickIdx (k.closest_claims t.content 3 EdgeKind.has_cons) r1) := by
  have hnb := pickIdx_mem hne r1
  have hc := hcons _ hnb
  refine ⟨?_, hnb, pickIdx_mem hc r2⟩
  unfold KialoAgent.response
  rw [if_neg (length_ne_zero_of_getLast? hlast), hlast]
  exact respondToQuery_ok k t.content r1 r2 hne hc

/-- C1 witness: with every query resolving to claim `"C1"` whose cons are
`"C1a"` and `"C1b"`, a one-turn dialogue yields `"C1a"` on one random tape
and `"C1b"` on the other. -/
theorem kialoAgent_response_random_con_witness :
    kEx.closest_claims (str "hello") 3 EdgeKind.has_cons = [str "C1"] ∧
    kEx.cons (str "C1") = [str "C1a", str "C1b"] ∧
    KialoAgent.response kEx [] 0 0 dEx = Except.ok (str "C1a") ∧
    KialoAgent.response kEx [] 0 1 dEx = Except.ok (str "C1b") := by
  refine ⟨rfl, by decide, ?_, ?_⟩
  · exact (kialoAgent_response_random_con kEx [] 0 0 dEx ⟨str "user", str "hello"⟩
      rfl (by decide) (by decide)).1.trans (by decide)
  · exact (kialoAgent_response_random_con kEx [] 0 1 dEx ⟨str "user", str "hello"⟩
      rfl (by decide) (by decide)).1.trans (by decide)

/-- C3: for a non-empty dialogue, each Kialo agent's `response` fails with
the `AssertionError` (of `assert neighbors`) exactly when its
`closest_claims(query, n=3, kind='has_cons')` call returns an empty list;
any other failure of the else-branch is an `IndexError`, never the
assertion. -/
theorem kialoAgents_assert_iff_empty (k : Kialo) (chain : List PyStr)
    (r1 r2 : Nat) (d : Dialogue) (t : Turn) (hlast : d.getLast? = some t) :
    ((∃ m, KialoAgent.response k chain r1 r2 d =
        Except.error (PyError.assertionError m)) ↔
      k.closest_claims t.content 3 EdgeKind.has_cons = []) ∧
    ((∃ m, KialoAgent2.response k chain r1 r2 d =
        Except.error (PyError.assertionError m)) ↔
      k.closest_claims (kialoAgent2Query d) 3 EdgeKind.has_cons = []) := by
  have hlen := length_ne_zero_of_getLast? hlast
  constructor
  · unfold KialoAgent.response
    rw [if_neg hlen, hlast]
    exact respondToQuery_assert_iff k t.content r1 r2
  · unfold KialoAgent2.response
    rw [if_neg hlen]
    exact respondToQuery_assert_iff k (kialoAgent2Query d) r1 r2

/-- C3 witness: over a claim graph whose queries all come back empty, the
one-turn dialogue makes both agents hit the assertion. -/
theorem kialoAgents_assert_iff_empty_witness :
    dEx.getLast? = some ⟨str "user", str "hello"⟩ ∧
    (∃ m, KialoAgent.response kEmpty [] 0 0 dEx =
      Except.error (PyError.assertionError m)) ∧
    (∃ m, KialoAgent2.response kEmpty [] 0 0 dEx =
      Except.error (PyError.assertionError m)) := by
  refine ⟨rfl, ?_, ?_⟩
  · exact (kialoAgents_assert_iff_empty kEmpty [] 0 0 dEx
      ⟨str "user", str "hello"⟩ rfl).1.mpr rfl
  · exact (kialoAgents_assert_iff_empty kEmpty [] 0 0 dEx
      ⟨str "user", str "hello"⟩ rfl).2.mpr rfl

/-- C9 counterexample: `kialo_responses` does NOT handle an empty
`closest_claims` result: on a claim graph whose queries come back empty it
fails with `IndexError` at the unguarded `[0]`, instead of returning
normally. -/
theorem kialo_responses_unguarded_cex :
    kEmpty.closest_claims_default (str "q") EdgeKind.has_cons = [] ∧
    kialo_responses kEmpty (str "q") = Except.error PyError.indexError := ⟨rfl, rfl⟩

/-- C9 amended: `kialo_responses` raises `IndexError` exactly when the
`closest_claims` call returns an empty sequence — the first-element access
is unguarded, so this caller does not handle empty results. -/
theorem kialo_responses_indexError_iff (k : Kialo) (s : PyStr) :
    kialo_responses k s = Except.error PyError.indexError ↔
      k.closest_claims_default s EdgeKind.has_cons = [] := by
  unfold kialo_responses
  cases h : (k.closest_claims_default s EdgeKind.has_cons) with
  | nil => simp
  | cons c cs =>
    simp only [h, List.getElem?_cons_zero]
    constructor
    · intro hm
      split at hm <;> split at hm <;> cases hm
    · intro hm
      cases hm

/-- C2: on an empty dialogue both Kialo agents return the first element of
the sampled `random_chain()` output (valid per the spec's contract), and
the similarity index is never consulted: the response is identical for any
other claim graph, in particular one with a different `closest_claims`. -/
theorem empty_dialogue_uses_random_chain (k k' : Kialo) (chain : List PyStr)
    (r1 r2 : Nat) (d : Dialogue) (hd : d.length = 0)
    (hv : k.validChain chain) :
    KialoAgent.response k chain r1 r2 d = Except.ok (chain.headD []) ∧
    KialoAgent2.response k chain r1 r2 d = Except.ok (chain.headD []) ∧
    KialoAgent.response k chain r1 r2 d = KialoAgent.response k' chain r1 r2 d ∧
    KialoAgent2.response k chain r1 r2 d = KialoAgent2.response k' chain r1 r2 d := by
  obtain ⟨hne, -⟩ := hv
  cases chain with
  | nil => exact absurd rfl hne
  | cons c cs =>
    refine ⟨?_, ?_, ?_, ?_⟩ <;>
      simp [KialoAgent.response, KialoAgent2.response, hd]

/-- C2 witness: a singleton chain on the concrete graph, against a second
graph with entirely different lookup functions. -/
theorem empty_dialogue_uses_random_chain_witness :
    kEx.validChain [str "C1"] ∧
    KialoAgent.response kEx [str "C1"] 0 0 [] = Except.ok (str "C1") ∧
    KialoAgent2.response kEx [str "C1"] 0 0 [] = Except.ok (str "C1") ∧
    KialoAgent.response kEx [str "C1"] 0 0 [] =
      KialoAgent.response kEmpty [str "C1"] 0 0 [] := by
  have hv : kEx.validChain [str "C1"] := ⟨by decide, List.chain'_singleton _⟩
  have h := empty_dialogue_uses_random_chain kEx kEmpty [str "C1"] 0 0 [] rfl hv
  exact ⟨hv, h.1, h.2.1, h.2.2.1⟩

lemma range_map_eq_specQueryBParts (dflt : Turn) :
    ∀ (j : Nat) (ts : Dialogue),
      (List.range ts.length).map
        (fun i => pyRep ((ts.getD i dflt).content) (i + j + 1)) =
      specQueryBParts j ts := by
  intro j ts
  induction ts generalizing j with
  | nil => rfl
  | cons t ts ih =>
    show (List.range (ts.length + 1)).map _ = _
    rw [List.range_succ_eq_map, List.map_cons, List.map_map]
    unfold specQueryBParts
    congr 1
    · simp
    · rw [← ih (j + 1)]
      apply List.map_congr_left
      intro i _
      simp only [Function.comp_apply, Nat.succ_eq_add_one, List.getD_cons_succ]
      congr 1
      omega

/-- C4: on a non-empty dialogue, the query `KialoAgent2.response` passes
to `closest_claims` is exactly the policy-B string: the contents of all
turns in order, turn `i` repeated `i + 1` times, joined with `";"`
(`specQueryB`), and the response is the shared else-branch applied to that
query. -/
theorem kialoAgent2_passes_specQueryB (k : Kialo) (chain : List PyStr)
    (r1 r2 : Nat) (d : Dialogue) (hd : d ≠ []) :
    kialoAgent2Query d = specQueryB d ∧
    KialoAgent2.response k chain r1 r2 d =
      respondToQuery k (specQueryB d) r1 r2 := by
  have hq : kialoAgent2Query d = specQueryB d := by
    unfold kialoAgent2Query specQueryB
    congr 1
    have h := range_map_eq_specQueryBParts ⟨[], []⟩ 0 d
    simpa using h
  refine ⟨hq, ?_⟩
  unfold KialoAgent2.response
  rw [if_neg (by simpa using hd), hq]

/-- C4 witness: on the concrete two-turn dialogue with contents `"ab"`,
`"cd"`, the query is `"ab;cdcd"`. -/
theorem kialoAgent2_passes_specQueryB_witness :
    dEx2 ≠ [] ∧
    kialoAgent2Query dEx2 = specQueryB dEx2 ∧
    specQueryB dEx2 = str "ab;cdcd" ∧
    KialoAgent2.response kEx [] 0 0 dEx2 =
      respondToQuery kEx (specQueryB dEx2) 0 0 := by
  have h := kialoAgent2_passes_specQueryB kEx [] 0 0 dEx2 (by decide)
  exact ⟨by decide, h.1, by decide, h.2⟩

/-- C10: on a dialogue of length exactly one, policy B's query equals the
single turn's content — the query of policy A — so `KialoAgent.response`
and `KialoAgent2.response` coincide for identical random tapes. -/
theorem one_turn_policies_agree (k : Kialo) (chain : List PyStr)
    (r1 r2 : Nat) (t : Turn) :
    kialoAgent2Query [t] = t.content ∧
    KialoAgent.response k chain r1 r2 [t] =
      KialoAgent2.response k chain r1 r2 [t] := by
  have hq : kialoAgent2Query [t] = t.content := by
    simp [kialoAgent2Query, List.intercalate, pyRep, List.range_succ,
      List.intersperse_singleton]
  refine ⟨hq, ?_⟩
  unfold KialoAgent.response KialoAgent2.response
  simp [hq]

/-- C8: none of the three agents' `response` bodies mutates the dialogue:
the state-threaded embeddings return the dialogue unchanged, with the same
result as the direct embeddings. -/
theorem responses_do_not_mutate_dialogue (k : Kialo) (chain : List PyStr)
    (r1 r2 : Nat) (d : Dialogue) (a : RAG_Agent) (kialo : Kialo) :
    (KialoAgent.responseSt k chain r1 r2 d).2 = d ∧
    (KialoAgent2.responseSt k chain r1 r2 d).2 = d ∧
    (RAG_Agent.responseSt a d kialo).2 = d ∧
    (KialoAgent.responseSt k chain r1 r2 d).1 = KialoAgent.response k chain r1 r2 d ∧
    (KialoAgent2.responseSt k chain r1 r2 d).1 = KialoAgent2.response k chain r1 r2 d ∧
    (RAG_Agent.responseSt a d kialo).1 = RAG_Agent.response a d kialo := by
  by_cases hd : d.length = 0
  · refine ⟨?_, ?_, rfl, ?_, ?_, rfl⟩ <;>
      simp [KialoAgent.responseSt, KialoAgent2.responseSt,
        KialoAgent.response, KialoAgent2.response, hd]
  · cases hl : d.getLast? with
    | none =>
      cases d with
      | nil => exact absurd rfl hd
      | cons x xs => simp at hl
    | some t =>
      refine ⟨?_, ?_, rfl, ?_, ?_, rfl⟩ <;>
        simp [KialoAgent.responseSt, KialoAgent2.responseSt,
          KialoAgent.response, KialoAgent2.response, hd, hl]

/-- C5 (bug evidence): contrary to the claim, `RAG_Agent.response` never
reads its `kialo` argument — the message list sent to the chat-completion
call is exactly `fmt d` with no context block composed from
`closest_claims` (`kialo_responses` is never invoked) — so the response is
identical under any two claim graphs, however different their
`closest_claims` results. -/
theorem rag_response_ignores_kialo (a : RAG_Agent) (d : Dialogue)
    (k1 k2 : Kialo) :
    RAG_Agent.response a d k1 = RAG_Agent.response a d k2 := rfl

/-- C6 counterexample: on a completion whose chosen message content is not
a text string, `RAG_Agent.response` fails with `ValueError` (argubots.py
line 150: `raise ValueError(...)`), not with `NoContentError`. -/
theorem rag_no_content_raises_valueError_cex :
    (aNone.client (aNone.fmt [])).choices[0]? =
      some ⟨none, str "stop"⟩ ∧
    RAG_Agent.response aNone [] kEmpty =
      Except.error (PyError.valueError (str "No content string returned")) ∧
    RAG_Agent.response aNone [] kEmpty ≠
      Except.error PyError.noContentError := by
  refine ⟨rfl, rfl, ?_⟩
  decide

/-- C6 amended: `RAG_Agent.response` fails with `ValueError` (not
`NoContentError`), surfaced to the caller, exactly when the completion's
chosen message content is not a text string. -/
theorem rag_valueError_iff_no_content (a : RAG_Agent) (d : Dialogue)
    (k : Kialo) :
    (∃ m, RAG_Agent.response a d k = Except.error (PyError.valueError m)) ↔
    (∃ c, (a.client (a.fmt d)).choices[0]? = some c ∧ c.content? = none) := by
  unfold RAG_Agent.response
  cases h : (a.client (a.fmt d)).choices[0]? with
  | none => simp [h]
  | some choice =>
    cases hc : choice.content? with
    | none => simp [h, hc]
    | some s =>
      simp only [h, hc, Option.some.injEq]
      constructor
      · rintro ⟨m, hm⟩
        split at hm <;> cases hm
      · rintro ⟨c, hceq, hcn⟩
        rw [← hceq] at hcn
        rw [hc] at hcn
        cases hcn

/-- C7 counterexample: with speaker name `"Bob"` and raw truncated content
exactly `"Bob:"`, appending the marker gives `"Bob: ..."`, which starts
with the speaker prefix `"Bob: "`; the prefix strip then eats the marker's
leading space, and the returned content `"..."` does not end with the
marker `" ..."`. -/
theorem rag_length_marker_cex :
    RAG_Agent.response aBob [] kEmpty = Except.ok (str "...") ∧
    ¬ (str " ...") <:+ (str "...") := by
  refine ⟨rfl, ?_⟩
  decide

/-- C7 amended: for a completion flagged `finish_reason = "length"` with
text content `s`, the returned content ends with the appended marker
`" ..."` — except in the corner case where the speaker prefix appears only
after appending the marker (raw content `"Name:"`), excluded by `hsafe` —
and a raw content that starts with the `"Name: "` prefix is returned with
that prefix stripped (and the marker appended). -/
theorem rag_length_marker (a : RAG_Agent) (d : Dialogue) (k : Kialo)
    (c : ChatChoice) (s : PyStr)
    (hc : (a.client (a.fmt d)).choices[0]? = some c)
    (hs : c.content? = some s)
    (hfin : c.finish_reason = str "length")
    (hsafe : (a.name ++ str ": ") <+: s ++ str " ..." →
      (a.name ++ str ": ") <+: s) :
    ∃ r, RAG_Agent.response a d k = Except.ok r ∧
      (str " ...") <:+ r ∧
      ((a.name ++ str ": ") <+: s →
        r = s.drop (a.name ++ str ": ").length ++ str " ...") := by
  simp only [RAG_Agent.response, hc, hs, hfin, eq_self_iff_true, if_true]
  by_cases hp : (a.name ++ str ": ").isPrefixOf (s ++ str " ...")
  · have hpre : (a.name ++ str ": ") <+: s :=
      hsafe (List.isPrefixOf_iff_prefix.mp hp)
    have hlen : (a.name ++ str ": ").length ≤ s.length := hpre.length_le
    rw [if_pos hp]
    refine ⟨_, rfl, ?_, fun _ => ?_⟩
    · rw [List.drop_append_eq_append_drop, Nat.sub_eq_zero_of_le hlen,
        List.drop_zero]
      exact List.suffix_append _ _
    · rw [List.drop_append_eq_append_drop, Nat.sub_eq_zero_of_le hlen,
        List.drop_zero]
  · rw [if_neg hp]
    refine ⟨_, rfl, List.suffix_append _ _, fun hpre => ?_⟩
    exact absurd (List.isPrefixOf_iff_prefix.mpr
      (hpre.trans (List.prefix_append s (str " ...")))) hp

/-- C7 witness: speaker `"Alice"`, truncated content `"Alice: I agree"`:
the reply is `"I agree ..."` — prefix stripped, marker appended. -/
theorem rag_length_marker_witness :
    (aAlice.client (aAlice.fmt [])).choices[0]? =
      some ⟨some (str "Alice: I agree"), str "length"⟩ ∧
    (∃ r, RAG_Agent.response aAlice [] kEmpty = Except.ok r ∧
      (str " ...") <:+ r ∧
      ((aAlice.name ++ str ": ") <+: str "Alice: I agree" →
        r = (str "Alice: I agree").drop (aAlice.name ++ str ": ").length ++
          str " ...")) := by
  refine ⟨rfl, ?_⟩
  exact rag_length_marker aAlice [] kEmpty
    ⟨some (str "Alice: I agree"), str "length"⟩ (str "Alice: I agree")
    rfl rfl rfl (by decide)
